import Mathlib

/-!
Shallow embedding of the InsuranceLake ETL pipeline-stack composition
(`src/lib/stacks/pipeline_stack.py`) together with the parts of the
configuration resolver and the CDK pipeline machinery that the repository
relies on but whose code is not part of this source tree (those parts are
modelled from the specification, and say so in their doc comments).

The Python code is a single-pass, pure assembly of resource declarations,
so the embedding renders it as total functions from the stack's inputs to
a record of declarations.
-/

namespace InsuranceLakeEtl

/-- Modelled from the spec: named deployment environments of the
configuration module (`lib/configuration.py`, not part of this source
tree). Only their identity matters to the pipeline stack. -/
def DEV : String := "Dev"

/-- Modelled from the spec: the test environment name constant. -/
def TEST : String := "Test"

/-- Modelled from the spec: the production environment name constant. -/
def PROD : String := "Prod"

/-- `cdk.RemovalPolicy` values used by the stack. -/
inductive RemovalPolicy where
  | RETAIN
  | DESTROY
deriving DecidableEq, Repr

/-- `logs.RetentionDays` values used by the stack. -/
inductive RetentionDays where
  | SIX_MONTHS
  | ONE_MONTH
deriving DecidableEq, Repr

/-- The environment-dependent removal policy chosen in
`PipelineStack.__init__` (pipeline_stack.py lines 62-67). -/
def removal_policy_of (target_environment : String) : RemovalPolicy :=
  if target_environment = PROD ∨ target_environment = TEST then
    RemovalPolicy.RETAIN
  else
    RemovalPolicy.DESTROY

/-- The environment-dependent log retention chosen in
`PipelineStack.__init__` (pipeline_stack.py lines 62-67). -/
def log_retention_of (target_environment : String) : RetentionDays :=
  if target_environment = PROD ∨ target_environment = TEST then
    RetentionDays.SIX_MONTHS
  else
    RetentionDays.ONE_MONTH

/-- The deployment-level configuration mapping the stack reads
(`self.mappings[DEPLOYMENT][...]`). Only the keys the stack consumes are
carried. An absent GitHub repository name is represented by the empty
string, matching Python falsiness of `''`. -/
structure Mappings where
  account_id : String
  region : String
  github_repository_name : String
  github_repository_owner_name : String
deriving DecidableEq, Repr

/-- A CDK environment: target account and region
(`cdk.Environment(account=..., region=...)`). -/
structure AwsEnv where
  account : String
  region : String
deriving DecidableEq, Repr

/-- `codepipeline.ActionCategory` (the embedding needs BUILD to be
distinguishable from the rest). -/
inductive ActionCategory where
  | SOURCE
  | BUILD
  | DEPLOY
  | APPROVAL
  | INVOKE
deriving DecidableEq, Repr

/-- The properties of a pipeline action the log-group loop inspects:
`action.action_properties.category`, `.action_name`, and
`.resource.project_name` (pipeline_stack.py lines 173-184). -/
structure ActionProperties where
  category : ActionCategory
  action_name : String
  project_name : String
deriving DecidableEq, Repr

/-- One stage of the built pipeline, as iterated by
`pipeline.pipeline.stages`. -/
structure StageDecl where
  actions : List ActionProperties
deriving DecidableEq, Repr

/-- A `logs.LogGroup` declaration as emitted by the loop in
`create_environment_pipeline` (pipeline_stack.py lines 173-184). -/
structure LogGroupDecl where
  id : String
  log_group_name : String
  removal_policy : RemovalPolicy
  retention : RetentionDays
deriving DecidableEq, Repr

/-- The log-group emission loop of `create_environment_pipeline`
(pipeline_stack.py lines 173-184): for every stage, for every action,
if the action's category is BUILD, emit one log group named after the
action's project, carrying the stack's removal policy and retention. -/
def build_log_groups (rp : RemovalPolicy) (rd : RetentionDays)
    (stages : List StageDecl) : List LogGroupDecl :=
  (stages.flatMap (fun s => s.actions)).filterMap (fun a =>
    if a.category = ActionCategory.BUILD then
      some { id := "CodeBuildAction" ++ a.action_name ++ "LogGroup",
             log_group_name := "/aws/codebuild/" ++ a.project_name,
             removal_policy := rp,
             retention := rd }
    else
      none)

/-- `s3.BucketAccessControl` values used by the stack. -/
inductive BucketAccessControl where
  | PRIVATE
  | PUBLIC_READ
deriving DecidableEq, Repr

/-- `s3.BlockPublicAccess` values used by the stack. -/
inductive BlockPublicAccess where
  | BLOCK_ALL
  | BLOCK_ACLS
deriving DecidableEq, Repr

/-- `s3.BucketEncryption` values used by the stack. -/
inductive BucketEncryption where
  | KMS
  | S3_MANAGED
  | UNENCRYPTED
deriving DecidableEq, Repr

/-- `s3.ObjectOwnership` values used by the stack. -/
inductive ObjectOwnership where
  | OBJECT_WRITER
  | BUCKET_OWNER_ENFORCED
deriving DecidableEq, Repr

/-- An `s3.Bucket` declaration with the properties the stack sets.
The last three fields are applied afterwards in
`create_environment_pipeline` via CloudFormation escape hatches
(pipeline_stack.py lines 186-199); `get_artifact_bucket` leaves them at
their CDK defaults. -/
structure BucketDecl where
  id : String
  bucket_name : String
  access_control : BucketAccessControl
  block_public_access : BlockPublicAccess
  enforce_ssl : Bool
  bucket_key_enabled : Bool
  encryption : BucketEncryption
  public_read_access : Bool
  removal_policy : RemovalPolicy
  versioned : Bool
  object_ownership : ObjectOwnership
  log_file_pfx : Option String := none
  encryption_key_rotation : Bool := false
  versioning_status : Option String := none
deriving DecidableEq, Repr

/-- `PipelineStack.get_artifact_bucket` (pipeline_stack.py lines
234-255): the hardened artifact bucket declaration. `logical_id_pfx` and
`resource_name_pfx` stand for `self.logical_id_prefix` and
`self.resource_name_prefix`. -/
def get_artifact_bucket (target_environment logical_id_pfx resource_name_pfx : String)
    (rp : RemovalPolicy) : BucketDecl :=
  { id := target_environment ++ logical_id_pfx ++ "EtlPipeline-Artifact",
    bucket_name := target_environment.toLower ++ "-" ++ resource_name_pfx
      ++ "-etl-pipeline-artifact",
    access_control := BucketAccessControl.PRIVATE,
    block_public_access := BlockPublicAccess.BLOCK_ALL,
    enforce_ssl := true,
    bucket_key_enabled := true,
    encryption := BucketEncryption.KMS,
    public_read_access := false,
    removal_policy := rp,
    versioned := true,
    object_ownership := ObjectOwnership.OBJECT_WRITER }

/-- The escape-hatch mutations `create_environment_pipeline` applies to
the artifact bucket after the pipeline is built (pipeline_stack.py lines
186-199): re-apply the stack removal policy, turn on server access
logging with the access-logs file name start, enable encryption-key
rotation, and force the versioning status to Enabled. -/
def apply_artifact_bucket_hatches (rp : RemovalPolicy) (b : BucketDecl) : BucketDecl :=
  { b with
    removal_policy := rp,
    log_file_pfx := some "access-logs",
    encryption_key_rotation := true,
    versioning_status := some "Enabled" }

/-- `pipelines.CodePipelineSource` objects the stack can produce.
Only the connection (CodeStarSourceConnection) variant exists in the
code. -/
inductive CodePipelineSource where
  | connection (action_name repo_string branch connection_arn : String)
deriving DecidableEq, Repr

/-- `PipelineStack.get_codepipeline_source` (pipeline_stack.py lines
216-232): when the configured GitHub repository name is truthy (a
non-empty string), return a connection source citing
owner/repository/branch; otherwise the Python function falls off the end
and returns `None`, despite its declared `CodePipelineSource` return
type. -/
def get_codepipeline_source (m : Mappings) (target_branch : String) :
    Option CodePipelineSource :=
  if m.github_repository_name ≠ "" then
    some (CodePipelineSource.connection "Source"
      (m.github_repository_owner_name ++ "/" ++ m.github_repository_name)
      target_branch
      "arn:aws:codestar-connections:us-east-1:787127824249:connection/ac69c4b3-c806-4b73-9bb8-df7c3a9b6162")
  else
    none

/-- Source-action providers that can appear in the pipeline's Source
stage. -/
inductive SourceProvider where
  | CodeStarSourceConnection
deriving DecidableEq, Repr

/-- A source action of the synthesized pipeline's Source stage. -/
structure SourceAction where
  provider : SourceProvider
  action_name : String
  repo_string : String
  branch : String
deriving DecidableEq, Repr

/-- Modelled from the spec: the CDK pipeline machinery (not part of this
source tree) renders the synth step's input into the pipeline's Source
stage — exactly one source action of connection type for a
connection-based `CodePipelineSource`, and no source action when no
source object was produced. -/
def source_actions : Option CodePipelineSource → List SourceAction
  | some (CodePipelineSource.connection n rs b _) =>
      [{ provider := SourceProvider.CodeStarSourceConnection,
         action_name := n, repo_string := rs, branch := b }]
  | none => []

/-- The `pipelines.ShellStep` built in `create_environment_pipeline`
(pipeline_stack.py lines 130-138). -/
structure ShellStep where
  id : String
  input : Option CodePipelineSource
  commands : List String
deriving DecidableEq, Repr

/-- The synth step of `create_environment_pipeline`
(pipeline_stack.py lines 130-138). -/
def synth_step (m : Mappings) (target_branch : String) : ShellStep :=
  { id := "Synth",
    input := get_codepipeline_source m target_branch,
    commands := [
      "npm install -g aws-cdk",
      "python -m pip install -r requirements.txt --root-user-action=ignore",
      "cdk synth" ] }

/-- Modelled from the spec: the build commands of the UpdatePipeline
(self-mutation) CodeBuild project that CDK pipelines (not part of this
source tree) emits when `self_mutation=True`: a deploy command that
references the stack's own logical identifier
(matched by the test regexp in test_pipeline_stack.py lines 180-182). -/
def self_mutate_commands (stack_logical_id : String) : List String :=
  ["cdk -a . deploy " ++ stack_logical_id ++ " --require-approval=never --verbose"]

/-- The `codepipeline.Pipeline` declaration of
`create_environment_pipeline` (pipeline_stack.py lines 120-128). -/
structure PipelineDecl where
  id : String
  pipeline_name : String
  cross_account_keys : Bool
  pipeline_type : String
  execution_mode : String
deriving DecidableEq, Repr

/-- The `pipelines.CodePipeline` declaration of
`create_environment_pipeline` (pipeline_stack.py lines 140-149). -/
structure CdkPipelineDecl where
  id : String
  self_mutation : Bool
  synth : ShellStep
deriving DecidableEq, Repr

/-- The `PipelineDeployStage` declaration of
`create_environment_pipeline` (pipeline_stack.py lines 151-159). -/
structure DeployStageDecl where
  id : String
  target_environment : String
  env : AwsEnv
deriving DecidableEq, Repr

/-- The complete declaration graph one `PipelineStack` composition
produces. -/
structure DeclarationGraph where
  code_pipeline : PipelineDecl
  cdk_pipeline : CdkPipelineDecl
  deploy_stage : DeployStageDecl
  artifact_bucket : BucketDecl
  log_groups : List LogGroupDecl
  src_actions : List SourceAction
deriving DecidableEq, Repr

/-- `PipelineStack.create_environment_pipeline` (pipeline_stack.py lines
74-214) as a pure assembly: build the CodePipeline with the artifact
bucket, the synth ShellStep bound to the selected source, the
self-mutating CDK pipeline, the deploy stage for the target environment,
then walk the built pipeline's stages (`stages`, produced by the CDK
machinery outside this source tree) emitting one log group per BUILD
action, and finally apply the escape-hatch hardening to the artifact
bucket. -/
def create_environment_pipeline (m : Mappings)
    (target_environment target_branch logical_id_pfx resource_name_pfx : String)
    (rp : RemovalPolicy) (rd : RetentionDays)
    (target_aws_env : AwsEnv) (stages : List StageDecl) : DeclarationGraph :=
  let bucket0 := get_artifact_bucket target_environment logical_id_pfx resource_name_pfx rp
  let sstep := synth_step m target_branch
  { code_pipeline := {
      id := target_environment ++ logical_id_pfx ++ "EtlPipeline",
      pipeline_name := target_environment.toLower ++ "-" ++ resource_name_pfx
        ++ "-etl-pipeline",
      cross_account_keys := true,
      pipeline_type := "V2",
      execution_mode := "QUEUED" },
    cdk_pipeline := {
      id := target_environment ++ logical_id_pfx ++ "EtlCodePipeline",
      self_mutation := true,
      synth := sstep },
    deploy_stage := {
      id := target_environment,
      target_environment := target_environment,
      env := target_aws_env },
    artifact_bucket := apply_artifact_bucket_hatches rp bucket0,
    log_groups := build_log_groups rp rd stages,
    src_actions := source_actions sstep.input }

/-- `PipelineStack.__init__` after configuration resolution
(pipeline_stack.py lines 53-72): derive the removal policy and log
retention from the target environment's class, then compose the
pipeline. -/
def pipeline_stack (m : Mappings)
    (target_environment target_branch logical_id_pfx resource_name_pfx : String)
    (target_aws_env : AwsEnv) (stages : List StageDecl) : DeclarationGraph :=
  create_environment_pipeline m target_environment target_branch
    logical_id_pfx resource_name_pfx
    (removal_policy_of target_environment)
    (log_retention_of target_environment)
    target_aws_env stages

/-- A configuration error raised by the configuration resolver. -/
structure ConfigurationError where
  message : String
deriving DecidableEq, Repr

/-- Modelled from the spec: key lookup of the Configuration Resolver
(`lib/configuration.py`, not part of this source tree) — a
per-environment override wins, else the global default applies. -/
def lookup_key (defaults overrides : List (String × String)) (k : String) :
    Option String :=
  match overrides.lookup k with
  | some v => some v
  | none => defaults.lookup k

/-- Modelled from the spec: the Configuration Resolver
(`get_all_configurations` in `lib/configuration.py`, not part of this
source tree) — resolve every required key by merging global defaults
with per-environment overrides, failing with a `ConfigurationError` as
soon as a required key is absent with no default, producing values only
when all keys resolve. -/
def resolve_configuration (defaults overrides : List (String × String))
    (required_keys : List String) :
    Except ConfigurationError (List (String × String)) :=
  match required_keys.find? (fun k => (lookup_key defaults overrides k).isNone) with
  | some k => Except.error { message := "Missing required configuration key " ++ k }
  | none => Except.ok (required_keys.filterMap (fun k =>
      (lookup_key defaults overrides k).map (fun v => (k, v))))

/-- `PipelineStack.__init__` (pipeline_stack.py lines 53-72) including
the configuration step: `self.mappings = get_all_configurations()` runs
first (line 55), before any resource declaration exists, so a resolver
failure yields the error and no graph at all. -/
def pipeline_stack_init (resolved : Except ConfigurationError Mappings)
    (target_environment target_branch logical_id_pfx resource_name_pfx : String)
    (target_aws_env : AwsEnv) (stages : List StageDecl) :
    Except ConfigurationError DeclarationGraph :=
  match resolved with
  | Except.error e => Except.error e
  | Except.ok m => Except.ok (pipeline_stack m target_environment target_branch
      logical_id_pfx resource_name_pfx target_aws_env stages)

/-- Modelled from the spec: cross-environment support stacks. The CDK
pipeline machinery (not part of this source tree) adds one extra
top-level support stack for a deploy stage whose target region differs
from the pipeline's own region; a target account difference alone, with
the region unchanged, adds none (the behavior fixed by
test_cross_region_number_of_stacks and
test_cross_account_number_of_stacks, and noted as an asymmetry by the
spec). -/
def support_stack_count (pipeline_env target_env : AwsEnv) : Nat :=
  if target_env.region ≠ pipeline_env.region then 1 else 0

/-- The number of top-level stacks in the app after instantiating one
`PipelineStack` per target environment: one stack per instantiation plus
its support stacks (`len(app.node.children)` in the tests). -/
def app_stack_count (pipeline_env : AwsEnv) (targets : List AwsEnv) : Nat :=
  targets.length + (targets.map (support_stack_count pipeline_env)).sum

/-! Sample concrete inputs, mirroring the mock configuration of
`test_pipeline_stack.py`, used by witness theorems. -/

/-- Sample deployment mappings with a configured GitHub repository. -/
def sample_mappings : Mappings :=
  { account_id := "123456789012",
    region := "us-east-1",
    github_repository_name := "mock-github-repository",
    github_repository_owner_name := "hernandj" }

/-- Sample deployment mappings with no configured GitHub repository. -/
def sample_mappings_no_repo : Mappings :=
  { sample_mappings with github_repository_name := "" }

/-- Sample pipeline account/region. -/
def sample_env : AwsEnv := { account := "123456789012", region := "us-east-1" }

/-- Sample built-pipeline stages: a Source stage and a Build stage. -/
def sample_stages : List StageDecl :=
  [ { actions := [
        { category := ActionCategory.SOURCE, action_name := "Source",
          project_name := "" } ] },
    { actions := [
        { category := ActionCategory.BUILD, action_name := "Synth",
          project_name := "test-testlake-synth-project" } ] } ]

/-- The log group expected from `sample_stages` in a Test-environment
composition. -/
def sample_log_group : LogGroupDecl :=
  { id := "CodeBuildActionSynthLogGroup",
    log_group_name := "/aws/codebuild/test-testlake-synth-project",
    removal_policy := RemovalPolicy.RETAIN,
    retention := RetentionDays.SIX_MONTHS }

/-! Helper lemmas. -/

/-- Every log group emitted by the loop carries exactly the removal
policy and retention the stack passed in. -/
theorem mem_build_log_groups_policy {rp : RemovalPolicy} {rd : RetentionDays}
    {stages : List StageDecl} {lg : LogGroupDecl}
    (h : lg ∈ build_log_groups rp rd stages) :
    lg.removal_policy = rp ∧ lg.retention = rd := by
  unfold build_log_groups at h
  rw [List.mem_filterMap] at h
  obtain ⟨a, -, ha⟩ := h
  by_cases hc : a.category = ActionCategory.BUILD
  · rw [if_pos hc] at ha
    cases ha
    exact ⟨rfl, rfl⟩
  · rw [if_neg hc] at ha
    cases ha

/-- The log-group loop is the map, over the BUILD-category actions of
the built pipeline, of the log-group record named after the action's
project. -/
theorem build_log_groups_eq_map_filter (rp : RemovalPolicy) (rd : RetentionDays)
    (stages : List StageDecl) :
    build_log_groups rp rd stages
      = ((stages.flatMap (fun s => s.actions)).filter
            (fun a => decide (a.category = ActionCategory.BUILD))).map
          (fun a =>
            { id := "CodeBuildAction" ++ a.action_name ++ "LogGroup",
              log_group_name := "/aws/codebuild/" ++ a.project_name,
              removal_policy := rp,
              retention := rd }) := by
  unfold build_log_groups
  induction stages.flatMap (fun s => s.actions) with
  | nil => rfl
  | cons a l ih =>
    by_cases hc : a.category = ActionCategory.BUILD
    · simp [List.filterMap_cons, List.filter_cons, hc, ih]
    · simp [List.filterMap_cons, List.filter_cons, hc, ih]

/-! Claim theorems. -/

/-- Claim C1: in every `PipelineStack` composition, the artifact bucket's
removal policy and every emitted log group's removal policy and retention
are determined solely by the environment class — the durable pair
(RETAIN, six months) exactly when the target environment is TEST or PROD,
and the ephemeral pair (DESTROY, one month) otherwise. -/
theorem claim_C1_policies_follow_environment_class
    (m : Mappings) (te tb lip rnp : String) (env : AwsEnv)
    (stages : List StageDecl) :
    (pipeline_stack m te tb lip rnp env stages).artifact_bucket.removal_policy
      = (if te = PROD ∨ te = TEST then RemovalPolicy.RETAIN
         else RemovalPolicy.DESTROY) ∧
    ∀ lg ∈ (pipeline_stack m te tb lip rnp env stages).log_groups,
      lg.removal_policy
        = (if te = PROD ∨ te = TEST then RemovalPolicy.RETAIN
           else RemovalPolicy.DESTROY) ∧
      lg.retention
        = (if te = PROD ∨ te = TEST then RetentionDays.SIX_MONTHS
           else RetentionDays.ONE_MONTH) := by
  constructor
  · simp [pipeline_stack, create_environment_pipeline,
      apply_artifact_bucket_hatches, get_artifact_bucket, removal_policy_of]
  · intro lg hmem
    have h : lg ∈ build_log_groups (removal_policy_of te) (log_retention_of te) stages := by
      simpa [pipeline_stack, create_environment_pipeline] using hmem
    have := mem_build_log_groups_policy h
    simpa [removal_policy_of, log_retention_of] using this

/-- Witness for C1: the Test-environment composition over the sample
stages contains the sample log group, and it carries the durable
policies. -/
theorem claim_C1_witness :
    sample_log_group
      ∈ (pipeline_stack sample_mappings "Test" "main" "TestLake" "testlake"
          sample_env sample_stages).log_groups ∧
    sample_log_group.removal_policy = RemovalPolicy.RETAIN ∧
    sample_log_group.retention = RetentionDays.SIX_MONTHS := by
  have h := (claim_C1_policies_follow_environment_class sample_mappings "Test"
    "main" "TestLake" "testlake" sample_env sample_stages).2
    sample_log_group (by decide)
  exact ⟨by decide, h.1.trans (by decide), h.2.trans (by decide)⟩

/-- Claim C6: after the pipeline graph is built, the emitted log groups
are in one-to-one correspondence with the BUILD-category actions
discovered in the pipeline's stages, each named after that action's
project. -/
theorem claim_C6_one_log_group_per_build_action
    (m : Mappings) (te tb lip rnp : String) (env : AwsEnv)
    (stages : List StageDecl) :
    (pipeline_stack m te tb lip rnp env stages).log_groups
      = ((stages.flatMap (fun s => s.actions)).filter
            (fun a => decide (a.category = ActionCategory.BUILD))).map
          (fun a =>
            { id := "CodeBuildAction" ++ a.action_name ++ "LogGroup",
              log_group_name := "/aws/codebuild/" ++ a.project_name,
              removal_policy := removal_policy_of te,
              retention := log_retention_of te }) := by
  simpa [pipeline_stack, create_environment_pipeline] using
    build_log_groups_eq_map_filter (removal_policy_of te) (log_retention_of te) stages

/-- Claim C2 counterexample: the claim's generalization — that a target
account differing from the pipeline's own, by itself, emits an
additional support declaration — is false: at the explicit input where
the target account differs but the region matches, zero support stacks
are emitted and one environment composition yields exactly one top-level
stack. -/
theorem claim_C2_counterexample :
    ({ account := "222222222222", region := "us-east-1" } : AwsEnv).account
        ≠ ({ account := "111111111111", region := "us-east-1" } : AwsEnv).account ∧
    support_stack_count { account := "111111111111", region := "us-east-1" }
        { account := "222222222222", region := "us-east-1" } = 0 ∧
    app_stack_count { account := "111111111111", region := "us-east-1" }
        [{ account := "222222222222", region := "us-east-1" }] = 1 := by
  decide

/-- Claim C2 (amended): three environment compositions whose target
account and region both equal the pipeline's own produce exactly 3
top-level stacks; three whose target regions each differ from the
pipeline's region produce exactly 6 — one additional cross-region
support stack per differing-region environment. (An additional support
declaration is emitted whenever the target REGION differs from the
pipeline's own; a target-account difference alone emits none.) -/
theorem claim_C2_stack_counts (p t1 t2 t3 u1 u2 u3 : AwsEnv)
    (h1 : t1.region = p.region) (h2 : t2.region = p.region)
    (h3 : t3.region = p.region)
    (g1 : u1.region ≠ p.region) (g2 : u2.region ≠ p.region)
    (g3 : u3.region ≠ p.region) :
    app_stack_count p [t1, t2, t3] = 3 ∧ app_stack_count p [u1, u2, u3] = 6 := by
  constructor
  · simp [app_stack_count, support_stack_count, h1, h2, h3]
  · simp [app_stack_count, support_stack_count, g1, g2, g3]

/-- Witness for C2: the mock pipeline environment with three same-region
targets yields 3 stacks, and with three differing-region targets yields
6. -/
theorem claim_C2_witness :
    app_stack_count { account := "123456789012", region := "us-east-1" }
      [ { account := "123456789012", region := "us-east-1" },
        { account := "123456789012", region := "us-east-1" },
        { account := "123456789012", region := "us-east-1" } ] = 3 ∧
    app_stack_count { account := "123456789012", region := "us-east-1" }
      [ { account := "123456789012", region := "dev-region" },
        { account := "123456789012", region := "test-region" },
        { account := "123456789012", region := "prod-region" } ] = 6 :=
  claim_C2_stack_counts
    { account := "123456789012", region := "us-east-1" }
    { account := "123456789012", region := "us-east-1" }
    { account := "123456789012", region := "us-east-1" }
    { account := "123456789012", region := "us-east-1" }
    { account := "123456789012", region := "dev-region" }
    { account := "123456789012", region := "test-region" }
    { account := "123456789012", region := "prod-region" }
    (by decide) (by decide) (by decide) (by decide) (by decide) (by decide)

/-- Claim C3: three environment compositions whose target accounts each
differ from the pipeline's own account while the region matches produce
exactly 3 top-level stacks — an account difference alone triggers no
support stack. -/
theorem claim_C3_cross_account_same_region_three_stacks
    (p t1 t2 t3 : AwsEnv)
    (ha1 : t1.account ≠ p.account) (ha2 : t2.account ≠ p.account)
    (ha3 : t3.account ≠ p.account)
    (hr1 : t1.region = p.region) (hr2 : t2.region = p.region)
    (hr3 : t3.region = p.region) :
    app_stack_count p [t1, t2, t3] = 3 := by
  simp [app_stack_count, support_stack_count, hr1, hr2, hr3]

/-- Witness for C3: the mock pipeline environment with the three
not-real-account targets of the cross-account test yields 3 stacks. -/
theorem claim_C3_witness :
    app_stack_count { account := "123456789012", region := "us-east-1" }
      [ { account := "devnotrealaccount", region := "us-east-1" },
        { account := "testnotrealaccount", region := "us-east-1" },
        { account := "prodnotrealaccount", region := "us-east-1" } ] = 3 :=
  claim_C3_cross_account_same_region_three_stacks
    { account := "123456789012", region := "us-east-1" }
    { account := "devnotrealaccount", region := "us-east-1" }
    { account := "testnotrealaccount", region := "us-east-1" }
    { account := "prodnotrealaccount", region := "us-east-1" }
    (by decide) (by decide) (by decide) (by decide) (by decide) (by decide)

/-- Claim C4: when a GitHub repository name is configured (non-empty),
the composed pipeline has exactly one source action; it is of connection
(CodeStarSourceConnection) type and references the configured owner and
repository names and the target branch passed to the stack. -/
theorem claim_C4_github_source_action
    (m : Mappings) (te tb lip rnp : String) (env : AwsEnv)
    (stages : List StageDecl)
    (h : m.github_repository_name ≠ "") :
    (pipeline_stack m te tb lip rnp env stages).src_actions.length = 1 ∧
    ∀ a ∈ (pipeline_stack m te tb lip rnp env stages).src_actions,
      a.provider = SourceProvider.CodeStarSourceConnection ∧
      a.action_name = "Source" ∧
      a.repo_string = m.github_repository_owner_name ++ "/"
        ++ m.github_repository_name ∧
      a.branch = tb := by
  constructor
  · simp [pipeline_stack, create_environment_pipeline, synth_step,
      get_codepipeline_source, source_actions, h]
  · intro a ha
    simp [pipeline_stack, create_environment_pipeline, synth_step,
      get_codepipeline_source, source_actions, h] at ha
    simp [ha]

/-- Witness for C4: the sample mappings configure a GitHub repository,
and the Dev composition's single source action cites
hernandj/mock-github-repository on branch main. -/
theorem claim_C4_witness :
    (pipeline_stack sample_mappings "Dev" "main" "TestLake" "testlake"
        sample_env sample_stages).src_actions.length = 1 ∧
    ∀ a ∈ (pipeline_stack sample_mappings "Dev" "main" "TestLake" "testlake"
        sample_env sample_stages).src_actions,
      a.provider = SourceProvider.CodeStarSourceConnection ∧
      a.action_name = "Source" ∧
      a.repo_string = sample_mappings.github_repository_owner_name ++ "/"
        ++ sample_mappings.github_repository_name ∧
      a.branch = "main" :=
  claim_C4_github_source_action sample_mappings "Dev" "main" "TestLake"
    "testlake" sample_env sample_stages (by decide)

/-- Claim C5: every composition's synth step includes the `cdk synth`
command, self-mutation is enabled, and the self-mutation build project's
commands include a deploy command referencing the stack's own logical
identifier. -/
theorem claim_C5_synth_and_self_mutation
    (m : Mappings) (te tb lip rnp : String) (env : AwsEnv)
    (stages : List StageDecl) (stack_logical_id : String) :
    "cdk synth" ∈ (pipeline_stack m te tb lip rnp env stages).cdk_pipeline.synth.commands ∧
    (pipeline_stack m te tb lip rnp env stages).cdk_pipeline.self_mutation = true ∧
    ∃ cmd ∈ self_mutate_commands stack_logical_id,
      ∃ s1 s2, cmd = s1 ++ stack_logical_id ++ s2 := by
  refine ⟨?_, rfl, ?_⟩
  · simp [pipeline_stack, create_environment_pipeline, synth_step]
  · exact ⟨"cdk -a . deploy " ++ stack_logical_id ++ " --require-approval=never --verbose",
      by simp [self_mutate_commands], "cdk -a . deploy ",
      " --require-approval=never --verbose", rfl⟩

/-- Claim C7: the composition is deterministic — two runs of the Stack
Composer on identical inputs produce structurally identical declaration
graphs: the graphs are equal, with the same log-group count, the same
bucket and pipeline names, and the same policies. -/
theorem claim_C7_composition_deterministic
    (m1 m2 : Mappings) (te1 te2 tb1 tb2 lip1 lip2 rnp1 rnp2 : String)
    (env1 env2 : AwsEnv) (st1 st2 : List StageDecl)
    (hm : m1 = m2) (hte : te1 = te2) (htb : tb1 = tb2) (hlip : lip1 = lip2)
    (hrnp : rnp1 = rnp2) (henv : env1 = env2) (hst : st1 = st2) :
    pipeline_stack m1 te1 tb1 lip1 rnp1 env1 st1
      = pipeline_stack m2 te2 tb2 lip2 rnp2 env2 st2 ∧
    (pipeline_stack m1 te1 tb1 lip1 rnp1 env1 st1).log_groups.length
      = (pipeline_stack m2 te2 tb2 lip2 rnp2 env2 st2).log_groups.length ∧
    (pipeline_stack m1 te1 tb1 lip1 rnp1 env1 st1).artifact_bucket.bucket_name
      = (pipeline_stack m2 te2 tb2 lip2 rnp2 env2 st2).artifact_bucket.bucket_name ∧
    (pipeline_stack m1 te1 tb1 lip1 rnp1 env1 st1).code_pipeline.pipeline_name
      = (pipeline_stack m2 te2 tb2 lip2 rnp2 env2 st2).code_pipeline.pipeline_name ∧
    (pipeline_stack m1 te1 tb1 lip1 rnp1 env1 st1).artifact_bucket.removal_policy
      = (pipeline_stack m2 te2 tb2 lip2 rnp2 env2 st2).artifact_bucket.removal_policy := by
  subst hm hte htb hlip hrnp henv hst
  exact ⟨rfl, rfl, rfl, rfl, rfl⟩

/-- Witness for C7: two runs on the sample input agree. -/
theorem claim_C7_witness :
    pipeline_stack sample_mappings "Dev" "main" "TestLake" "testlake"
        sample_env sample_stages
      = pipeline_stack sample_mappings "Dev" "main" "TestLake" "testlake"
        sample_env sample_stages :=
  (claim_C7_composition_deterministic sample_mappings sample_mappings
    "Dev" "Dev" "main" "main" "TestLake" "TestLake" "testlake" "testlake"
    sample_env sample_env sample_stages sample_stages
    rfl rfl rfl rfl rfl rfl rfl).1

/-- Claim C8: when a required configuration key is absent for the given
environment and no default exists, the resolver fails with a
configuration error; since `PipelineStack.__init__` resolves the
configuration before composing anything, the whole composition yields
exactly that error and produces no declaration graph at all. -/
theorem claim_C8_missing_key_fails_before_composition
    (defaults overrides : List (String × String)) (required_keys : List String)
    (k : String) (hk : k ∈ required_keys)
    (hmiss : lookup_key defaults overrides k = none)
    (te tb lip rnp : String) (env : AwsEnv) (stages : List StageDecl) :
    (∃ e, resolve_configuration defaults overrides required_keys
        = Except.error e) ∧
    ∀ e : ConfigurationError,
      pipeline_stack_init (Except.error e) te tb lip rnp env stages
        = Except.error e := by
  constructor
  · have hsome :
        (required_keys.find? (fun k => (lookup_key defaults overrides k).isNone)).isSome := by
      rw [List.find?_isSome]
      exact ⟨k, hk, by simp [hmiss]⟩
    unfold resolve_configuration
    cases hfind : required_keys.find? (fun k => (lookup_key defaults overrides k).isNone) with
    | none => rw [hfind] at hsome; simp at hsome
    | some k2 => exact ⟨_, rfl⟩
  · intro e
    rfl

/-- Witness for C8: with empty defaults and overrides and one required
key, resolution fails, and initializing from that failure returns the
error unchanged. -/
theorem claim_C8_witness :
    (∃ e, resolve_configuration [] [] ["github_repository_name"]
        = Except.error e) ∧
    ∀ e : ConfigurationError,
      pipeline_stack_init (Except.error e) "Dev" "main" "TestLake" "testlake"
        sample_env sample_stages = Except.error e :=
  claim_C8_missing_key_fails_before_composition [] []
    ["github_repository_name"] "github_repository_name"
    (by decide) (by decide) "Dev" "main" "TestLake" "testlake"
    sample_env sample_stages

/-- Claim C9: when no GitHub repository name is configured,
`get_codepipeline_source` returns no source object (None) despite its
declared return type — it does not raise — so the synth step's input is
absent and the pipeline ends up with no source action. -/
theorem claim_C9_missing_repo_yields_no_source
    (m : Mappings) (te tb lip rnp : String) (env : AwsEnv)
    (stages : List StageDecl)
    (h : m.github_repository_name = "") :
    get_codepipeline_source m tb = none ∧
    (pipeline_stack m te tb lip rnp env stages).cdk_pipeline.synth.input = none ∧
    (pipeline_stack m te tb lip rnp env stages).src_actions = [] := by
  refine ⟨?_, ?_, ?_⟩ <;>
    simp [pipeline_stack, create_environment_pipeline, synth_step,
      get_codepipeline_source, source_actions, h]

/-- Witness for C9: the sample mappings without a repository name yield
no source, no synth input, and no source action. -/
theorem claim_C9_witness :
    get_codepipeline_source sample_mappings_no_repo "main" = none ∧
    (pipeline_stack sample_mappings_no_repo "Dev" "main" "TestLake" "testlake"
        sample_env sample_stages).cdk_pipeline.synth.input = none ∧
    (pipeline_stack sample_mappings_no_repo "Dev" "main" "TestLake" "testlake"
        sample_env sample_stages).src_actions = [] :=
  claim_C9_missing_repo_yields_no_source sample_mappings_no_repo "Dev" "main"
    "TestLake" "testlake" sample_env sample_stages (by decide)

/-- Claim C10: in every composition, whatever the target environment,
the artifact bucket carries the hardened settings — all public access
blocked, SSL enforced, KMS encryption with key rotation, private access
control, no public read, versioning enabled (both the property and the
escape-hatch override), and server access logging configured — while its
removal policy is exactly the one derived from the environment class. -/
theorem claim_C10_artifact_bucket_hardening
    (m : Mappings) (te tb lip rnp : String) (env : AwsEnv)
    (stages : List StageDecl) :
    (pipeline_stack m te tb lip rnp env stages).artifact_bucket.block_public_access
      = BlockPublicAccess.BLOCK_ALL ∧
    (pipeline_stack m te tb lip rnp env stages).artifact_bucket.enforce_ssl = true ∧
    (pipeline_stack m te tb lip rnp env stages).artifact_bucket.encryption
      = BucketEncryption.KMS ∧
    (pipeline_stack m te tb lip rnp env stages).artifact_bucket.encryption_key_rotation
      = true ∧
    (pipeline_stack m te tb lip rnp env stages).artifact_bucket.bucket_key_enabled
      = true ∧
    (pipeline_stack m te tb lip rnp env stages).artifact_bucket.access_control
      = BucketAccessControl.PRIVATE ∧
    (pipeline_stack m te tb lip rnp env stages).artifact_bucket.public_read_access
      = false ∧
    (pipeline_stack m te tb lip rnp env stages).artifact_bucket.versioned = true ∧
    (pipeline_stack m te tb lip rnp env stages).artifact_bucket.versioning_status
      = some "Enabled" ∧
    (pipeline_stack m te tb lip rnp env stages).artifact_bucket.log_file_pfx
      = some "access-logs" ∧
    (pipeline_stack m te tb lip rnp env stages).artifact_bucket.removal_policy
      = removal_policy_of te := by
  refine ⟨rfl, rfl, rfl, rfl, rfl, rfl, rfl, rfl, rfl, rfl, rfl⟩

end InsuranceLakeEtl
